import Mathlib

/-!
Shallow embedding of the FastAPI auth/email-verification service
(controllers `auth_controller.py`, repositories `auth_repo.py` /
`users_repo.py`, models `user.py` / `verification_token.py`,
constants `constants.py`, utilities `auth_utils.py`).

Conventions of the embedding:
- the relational store is a pair of lists (`users`, `vtokens`) in insertion
  order; SQL `first()` is `List.find?` / a fold over the filtered rows;
- timestamps are `Nat` seconds since the epoch (the code stores
  `round(total_seconds())` in `BigInteger` columns);
- each raised `HTTPException(status_code, detail)` is an `Err` value and a
  controller returns `Except Err result`; the one place the Python code can
  crash with `AttributeError` (reading `.is_verified` of a `None` user) is an
  outer `Option`, with `none` standing for the crash;
- external collaborators (bcrypt hashing, password verification, the random
  6-digit code, fresh row ids, the clock) enter as explicit parameters;
  the outbound email sender is modelled as a log of `(recipient, code)`
  pairs appended to the state exactly where `send_email` is awaited.
-/

set_option autoImplicit false

deriving instance DecidableEq for Except

namespace FastAPIAuth

/-! ### The validation patterns of `constants.py`

`EMAIL_REGEX` is the RFC-5322-derived pattern applied with `re.match`
(a prefix match anchored at the start only); `PASSWORD_REGEX` is
anchored on both sides.  Both patterns are lowered to executable
character-list matchers below, following the character classes of the
source pattern codepoint by codepoint. -/

/-- Characters of the local-part atom class
of EMAIL_REGEX (lowercase letters, digits, and the listed specials). -/
def isAtext (c : Char) : Bool :=
  (decide (97 ≤ c.toNat) && decide (c.toNat ≤ 122)) ||
  (decide (48 ≤ c.toNat) && decide (c.toNat ≤ 57)) ||
  [33, 35, 36, 37, 38, 39, 42, 43, 47, 61, 63, 94, 95, 96,
   123, 124, 125, 126, 45].contains c.toNat

/-- Characters allowed unescaped inside a quoted local part. -/
def isQtext (c : Char) : Bool :=
  (decide (1 ≤ c.toNat) && decide (c.toNat ≤ 8)) ||
  decide (c.toNat = 10) || decide (c.toNat = 11) || decide (c.toNat = 12) ||
  (decide (14 ≤ c.toNat) && decide (c.toNat ≤ 31)) ||
  decide (c.toNat = 33) ||
  (decide (35 ≤ c.toNat) && decide (c.toNat ≤ 91)) ||
  (decide (93 ≤ c.toNat) && decide (c.toNat ≤ 127))

/-- Characters allowed after a backslash escape. -/
def isQuotedPairChar (c : Char) : Bool :=
  (decide (1 ≤ c.toNat) && decide (c.toNat ≤ 9)) ||
  decide (c.toNat = 11) || decide (c.toNat = 12) ||
  (decide (14 ≤ c.toNat) && decide (c.toNat ≤ 127))

/-- Characters allowed unescaped in the general-address-literal tail
of the bracketed domain alternative. -/
def isDtext (c : Char) : Bool :=
  (decide (1 ≤ c.toNat) && decide (c.toNat ≤ 8)) ||
  decide (c.toNat = 10) || decide (c.toNat = 11) || decide (c.toNat = 12) ||
  (decide (14 ≤ c.toNat) && decide (c.toNat ≤ 31)) ||
  (decide (33 ≤ c.toNat) && decide (c.toNat ≤ 90)) ||
  (decide (83 ≤ c.toNat) && decide (c.toNat ≤ 127))

/-- Lowercase letter or digit. -/
def isLowerDigit (c : Char) : Bool :=
  (decide (97 ≤ c.toNat) && decide (c.toNat ≤ 122)) ||
  (decide (48 ≤ c.toNat) && decide (c.toNat ≤ 57))

/-- Lowercase letter, digit, or hyphen. -/
def isLdh (c : Char) : Bool :=
  isLowerDigit c || decide (c.toNat = 45)

/-- ASCII digit. -/
def isDigitC (c : Char) : Bool :=
  decide (48 ≤ c.toNat) && decide (c.toNat ≤ 57)

/-- Split a character list at every occurrence of a separator. -/
def splitOnChar (sep : Char) : List Char → List (List Char)
  | [] => [[]]
  | c :: cs =>
    let r := splitOnChar sep cs
    if c = sep then [] :: r
    else
      match r with
      | [] => [[c]]
      | h :: t => (c :: h) :: t

/-- Join chunks back with a dot separator (inverse of splitting on a dot). -/
def joinDots : List (List Char) → List Char
  | [] => []
  | [l] => l
  | l :: ls => l ++ Char.ofNat 46 :: joinDots ls

/-- Dot-atom alternative of the local part: atoms of atext characters
separated by single dots, no empty atom. -/
def isDotAtom (l : List Char) : Bool :=
  (splitOnChar (Char.ofNat 46) l).all fun ch => !ch.isEmpty && ch.all isAtext

/-- Scan the tail of a quoted local part (after the opening quote):
a sequence of qtext characters or backslash escapes, ended by the
closing quote as the final character. -/
def quotedTail : List Char → Bool
  | [] => false
  | [c] => decide (c.toNat = 34)
  | c :: c2 :: rest =>
    if c.toNat = 92 then isQuotedPairChar c2 && quotedTail rest
    else isQtext c && quotedTail (c2 :: rest)

/-- Quoted-string alternative of the local part. -/
def isQuotedLocal : List Char → Bool
  | c :: rest => decide (c.toNat = 34) && quotedTail rest
  | [] => false

/-- Local part of the address: dot-atom or quoted string. -/
def isLocalPart (l : List Char) : Bool :=
  isDotAtom l || isQuotedLocal l

/-- The final hostname label: nonempty, first and last alphanumeric,
hyphens allowed in between. -/
def isLabel (l : List Char) : Bool :=
  match l, l.getLast? with
  | c :: cs, some z =>
    isLowerDigit c && isLowerDigit z && (cs.dropLast.all isLdh)
  | _, _ => false

/-- A non-final (dot-followed) hostname label: the raw triple-quoted source
string embeds a literal newline in this alternative's closing character
class, so a label of length at least two may also end in a newline. -/
def isInnerLabel (l : List Char) : Bool :=
  match l, l.getLast? with
  | [c], some _ => isLowerDigit c
  | c :: cs, some z =>
    isLowerDigit c && (isLowerDigit z || decide (z.toNat = 10)) &&
    (cs.dropLast.all isLdh)
  | _, _ => false

/-- Dotted-hostname alternative of the domain: at least two labels, the
labels before a dot by `isInnerLabel`, the last one by `isLabel`. -/
def isDottedDomain (l : List Char) : Bool :=
  let chunks := splitOnChar (Char.ofNat 46) l
  decide (2 ≤ chunks.length) && chunks.dropLast.all isInnerLabel &&
  (match chunks.getLast? with
   | some last => isLabel last
   | none => false)

/-- One decimal octet as written in the pattern: 0-255 with no leading zero
except the single digit itself. -/
def isOctet : List Char → Bool
  | [c] => isDigitC c
  | [c1, c2] => (decide (49 ≤ c1.toNat) && decide (c1.toNat ≤ 57)) && isDigitC c2
  | [c1, c2, c3] =>
    (decide (c1.toNat = 49) && isDigitC c2 && isDigitC c3) ||
    (decide (c1.toNat = 50) && (decide (48 ≤ c2.toNat) && decide (c2.toNat ≤ 52)) &&
      isDigitC c3) ||
    (decide (c1.toNat = 50) && decide (c2.toNat = 53) &&
      (decide (48 ≤ c3.toNat) && decide (c3.toNat ≤ 53)))
  | _ => false

/-- Scan a sequence of dtext characters or backslash escapes; a backslash
may also stand for itself as dtext of the class. -/
def dtextChain : List Char → Bool
  | [] => true
  | [c] => isDtext c
  | c :: c2 :: rest =>
    if c.toNat = 92 then
      (isQuotedPairChar c2 && dtextChain rest) || (isDtext c && dtextChain (c2 :: rest))
    else isDtext c && dtextChain (c2 :: rest)

/-- General-address-literal tail of the bracketed domain: a nonempty
ldh name ending alphanumeric, a colon, then a nonempty dtext sequence. -/
def isGeneralLiteral (l : List Char) : Bool :=
  let pre := l.takeWhile fun c => !decide (c.toNat = 58)
  match l.drop pre.length with
  | _ :: rest =>
    (match pre, pre.getLast? with
     | c :: cs, some z =>
       isLdh c && isLowerDigit z && cs.dropLast.all isLdh
     | _, _ => false) && !rest.isEmpty && dtextChain rest
  | [] => false

/-- The fourth-position octet: the raw triple-quoted source string embeds a
literal newline between the 2 and the 5 of the 250-255 alternative, so
250-255 are only written as a 2, a newline, a 5 and the final digit, while
the other alternatives are unchanged. -/
def isOctet4 : List Char → Bool
  | [c] => isDigitC c
  | [c1, c2] => (decide (49 ≤ c1.toNat) && decide (c1.toNat ≤ 57)) && isDigitC c2
  | [c1, c2, c3] =>
    (decide (c1.toNat = 49) && isDigitC c2 && isDigitC c3) ||
    (decide (c1.toNat = 50) && (decide (48 ≤ c2.toNat) && decide (c2.toNat ≤ 52)) &&
      isDigitC c3)
  | [c1, c2, c3, c4] =>
    decide (c1.toNat = 50) && decide (c2.toNat = 10) && decide (c3.toNat = 53) &&
    (decide (48 ≤ c4.toNat) && decide (c4.toNat ≤ 53))
  | _ => false

/-- Interior of a bracketed domain literal: three octets each followed by a
dot, then either a fourth-position octet or a general address literal. -/
def isBracketInterior (l : List Char) : Bool :=
  let chunks := splitOnChar (Char.ofNat 46) l
  decide (4 ≤ chunks.length) &&
  (chunks.take 3).all isOctet &&
  (let rest := joinDots (chunks.drop 3)
   isOctet4 rest || isGeneralLiteral rest)

/-- Bracketed domain-literal alternative of the domain part. -/
def isBracketDomain (l : List Char) : Bool :=
  match l, l.getLast? with
  | c :: cs, some z =>
    decide (c.toNat = 91) && decide (z.toNat = 93) &&
    isBracketInterior cs.dropLast
  | _, _ => false

/-- Domain part of the address. -/
def isDomain (l : List Char) : Bool :=
  isDottedDomain l || isBracketDomain l

/-- A full address: local part, the at sign, domain part. -/
def isEmailFull (l : List Char) : Bool :=
  (List.range l.length).any fun i =>
    (match l.drop i with
     | c :: d => decide (c.toNat = 64) && isLocalPart (l.take i) && isDomain d
     | [] => false)

/-- Truth value of `re.match(EMAIL_REGEX, s)`: some prefix of the string is a
full address (the pattern is unanchored at the right). -/
def emailMatch (s : String) : Bool :=
  (List.range (s.data.length + 1)).any fun i => isEmailFull (s.data.take i)

/-- Characters of the PASSWORD_REGEX class (letters, digits, and the listed
punctuation). -/
def isPassChar (c : Char) : Bool :=
  (decide (65 ≤ c.toNat) && decide (c.toNat ≤ 90)) ||
  (decide (97 ≤ c.toNat) && decide (c.toNat ≤ 122)) ||
  isDigitC c ||
  [91, 93, 123, 125, 59, 58, 61, 60, 62, 95, 43, 94, 35, 36, 64,
   33, 37, 42, 63, 38].contains c.toNat

/-- Uppercase ASCII letter. -/
def isUpperAZ (c : Char) : Bool :=
  decide (65 ≤ c.toNat) && decide (c.toNat ≤ 90)

/-- Lowercase ASCII letter. -/
def isLowerAZ (c : Char) : Bool :=
  decide (97 ≤ c.toNat) && decide (c.toNat ≤ 122)

/-- Body of PASSWORD_REGEX between the anchors: 8 to 30 characters of the
class, with at least one lowercase letter, one uppercase letter and one
digit (the three lookaheads). -/
def passBody (l : List Char) : Bool :=
  decide (8 ≤ l.length) && decide (l.length ≤ 30) &&
  l.all isPassChar && l.any isLowerAZ && l.any isUpperAZ && l.any isDigitC

/-- Truth value of `re.match(PASSWORD_REGEX, s)`: a dollar anchor also
matches just before a single trailing newline. -/
def passwordMatch (s : String) : Bool :=
  passBody s.data ||
  (match s.data.getLast? with
   | some c => decide (c.toNat = 10) && passBody s.data.dropLast
   | none => false)

/-! ### Data model (`db/models/user.py`, `db/models/verification_token.py`) -/

/-- One raised `HTTPException`: its status code and its `detail` message. -/
structure Err where
  status : Nat
  detail : String
deriving DecidableEq

/-- A row of the `user` table.  The generated uuid, the bcrypt digest and
the creation time enter through the operations that create rows. -/
structure UserRec where
  id : String
  sub : Option String := none
  email : String
  password : String := ""
  provider : String := "local"
  given_name : Option String := none
  family_name : Option String := none
  is_verified : Bool := false
  disabled : Bool := false
  created_at : Nat := 0
deriving DecidableEq

/-- A row of the `verificationtoken` table: `token` is the 6-digit code,
`created_at` the creation time and `expires_at` its value plus 300
seconds (the 5-minute window of the default factories). -/
structure VerificationToken where
  id : String
  token : String
  user_id : String
  created_at : Nat
  expires_at : Nat
deriving DecidableEq

/-- The persistent store plus the outbound-email log: `users` and `vtokens`
are the two tables in insertion order, and `emailsSent` records each
`send_email(recipient, code)` call the controllers await. -/
structure AppState where
  users : List UserRec
  vtokens : List VerificationToken
  emailsSent : List (String × String)
deriving DecidableEq

/-! ### Repositories (`users_repo.py`, `auth_repo.py`) -/

namespace UsersRepo

/-- Translation of `users_repo.get_user_by_email`: first row of
`select(User).where(User.email == email)`. -/
def get_user_by_email (st : AppState) (email : String) : Option UserRec :=
  st.users.find? fun u => u.email == email

/-- Translation of `users_repo.get_user_by_id`: first row of
`select(User).where(User.id == user_id)`. -/
def get_user_by_id (st : AppState) (user_id : String) : Option UserRec :=
  st.users.find? fun u => u.id == user_id

/-- Translation of `users_repo.create_user`: inserts a fresh local row with
the model's defaults (`provider="local"`, `is_verified=False`,
`disabled=False`); the uuid and the clock enter as parameters. -/
def create_user (st : AppState) (email password : String) (newId : String)
    (now : Nat) : AppState × UserRec :=
  let u : UserRec :=
    { id := newId, sub := none, email := email, password := password,
      provider := "local", given_name := none, family_name := none,
      is_verified := false, disabled := false, created_at := now }
  ({ st with users := st.users ++ [u] }, u)

end UsersRepo

namespace AuthRepo

/-- Of two rows, the one the descending `created_at` order puts first,
keeping the earlier row on ties. -/
def laterRow (b t : VerificationToken) : VerificationToken :=
  if b.created_at < t.created_at then t else b

/-- Result of `ORDER BY created_at DESC ... first()` over a row list: the
row with the maximal `created_at`, keeping the earlier row on ties. -/
def latestOf (l : List VerificationToken) : Option VerificationToken :=
  l.foldl
    (fun acc t =>
      match acc with
      | none => some t
      | some b => some (laterRow b t))
    none

/-- Translation of `auth_repo.get_latest_verification_token`: the user's
token rows ordered by `created_at` descending, first row or `None`. -/
def get_latest_verification_token (st : AppState) (user_id : String) :
    Option VerificationToken :=
  latestOf (st.vtokens.filter fun t => t.user_id == user_id)

theorem foldl_laterRow_acc (l : List VerificationToken) (b : VerificationToken) :
    l.foldl laterRow b = b ∨ l.foldl laterRow b ∈ l := by
  induction l generalizing b with
  | nil => exact Or.inl rfl
  | cons t ts ih =>
    simp only [List.foldl_cons]
    rcases ih (laterRow b t) with h | h
    · rw [h]
      unfold laterRow
      split
      · exact Or.inr (List.mem_cons_self t ts)
      · exact Or.inl rfl
    · exact Or.inr (List.mem_cons_of_mem t h)

theorem foldl_laterRow_le (l : List VerificationToken) (b : VerificationToken) :
    b.created_at ≤ (l.foldl laterRow b).created_at ∧
    ∀ t ∈ l, t.created_at ≤ (l.foldl laterRow b).created_at := by
  induction l generalizing b with
  | nil => exact ⟨Nat.le_refl _, by intro t h; cases h⟩
  | cons t ts ih =>
    simp only [List.foldl_cons]
    obtain ⟨h1, h2⟩ := ih (laterRow b t)
    have hb : b.created_at ≤ (laterRow b t).created_at := by
      unfold laterRow; split
      · omega
      · exact Nat.le_refl _
    have ht : t.created_at ≤ (laterRow b t).created_at := by
      unfold laterRow; split
      · exact Nat.le_refl _
      · omega
    refine ⟨Nat.le_trans hb h1, ?_⟩
    intro x hx
    rcases List.mem_cons.mp hx with rfl | hx
    · exact Nat.le_trans ht h1
    · exact h2 x hx

theorem foldl_latest_some (l : List VerificationToken) (b : VerificationToken) :
    (l.foldl
      (fun acc t =>
        match acc with
        | none => some t
        | some b => some (laterRow b t))
      (some b)) = some (l.foldl laterRow b) := by
  induction l generalizing b with
  | nil => rfl
  | cons t ts ih => simpa using ih (laterRow b t)

theorem latestOf_mem {l : List VerificationToken} {vt : VerificationToken}
    (h : latestOf l = some vt) : vt ∈ l := by
  match l with
  | [] => cases h
  | t :: ts =>
    unfold latestOf at h
    rw [List.foldl_cons, foldl_latest_some] at h
    have h2 := Option.some.inj h
    subst h2
    rcases foldl_laterRow_acc ts t with h3 | h3
    · rw [h3]; exact List.mem_cons_self t ts
    · exact List.mem_cons_of_mem t h3

theorem latestOf_le {l : List VerificationToken} {vt : VerificationToken}
    (h : latestOf l = some vt) : ∀ t ∈ l, t.created_at ≤ vt.created_at := by
  match l with
  | [] => intro t ht; cases ht
  | t :: ts =>
    unfold latestOf at h
    rw [List.foldl_cons, foldl_latest_some] at h
    have h2 := Option.some.inj h
    subst h2
    obtain ⟨h1, hall⟩ := foldl_laterRow_le ts t
    intro x hx
    rcases List.mem_cons.mp hx with rfl | hx
    · exact h1
    · exact hall x hx

theorem latestOf_nil_iff {l : List VerificationToken} :
    latestOf l = none ↔ l = [] := by
  match l with
  | [] => simp [latestOf]
  | t :: ts =>
    unfold latestOf
    rw [List.foldl_cons, foldl_latest_some]
    simp

/-- A row returned by `get_latest_verification_token` is a stored row of
the queried user. -/
theorem get_latest_spec {st : AppState} {uid : String} {vt : VerificationToken}
    (h : get_latest_verification_token st uid = some vt) :
    vt ∈ st.vtokens ∧ vt.user_id = uid := by
  unfold get_latest_verification_token at h
  have hm := latestOf_mem h
  have := List.mem_filter.mp hm
  exact ⟨this.1, by simpa using this.2⟩

/-- Translation of `auth_repo.create_verification_token`: inserts a row
whose code, uuid and clock reading enter as parameters, with the model's
`expires_at = created_at + 300` default factories. -/
def create_verification_token (st : AppState) (user_id : String)
    (newId code : String) (now : Nat) : AppState × VerificationToken :=
  let vt : VerificationToken :=
    { id := newId, token := code, user_id := user_id,
      created_at := now, expires_at := now + 300 }
  ({ st with vtokens := st.vtokens ++ [vt] }, vt)

/-- Translation of `auth_repo.verify_user`: sets `is_verified` on the row
with the given id. -/
def verify_user (st : AppState) (user_id : String) : AppState :=
  { st with
    users := st.users.map fun u =>
      if u.id == user_id then { u with is_verified := true } else u }

/-- Translation of `auth_repo.delete_user_verification_tokens`: deletes
every token row of the user. -/
def delete_user_verification_tokens (st : AppState) (user_id : String) :
    AppState :=
  { st with vtokens := st.vtokens.filter fun t => !(t.user_id == user_id) }

end AuthRepo

/-! ### Token issuing (`auth_utils.py`) and validation (`dependencies.py`)

The two jose secrets are distinct opaque values; a signed token is its
payload `{exp, sub}` together with the secret that signed it. -/

/-- The two module-level jose secrets. -/
inductive SecretKey where
  | access
  | refresh
deriving DecidableEq

/-- An encoded jose token: the payload `{exp, sub}` plus the signing
secret. -/
structure Jwt where
  key : SecretKey
  exp : Nat
  sub : String
deriving DecidableEq

/-- Module-level constant of `auth_utils.py` (its local value 99999999,
which shadows the 30 of `constants.py` for both token kinds). -/
def ACCESS_TOKEN_EXPIRE_MINUTES : Nat := 99999999

/-- Translation of `auth_utils.get_expires_delta` on the default `None`
argument: now plus `ACCESS_TOKEN_EXPIRE_MINUTES` minutes, in seconds. -/
def get_expires_delta (now : Nat) : Nat :=
  now + ACCESS_TOKEN_EXPIRE_MINUTES * 60

/-- Translation of `auth_utils.create_access_token` with the default
expiry: payload `{exp, sub}` signed with the access secret. -/
def create_access_token (subject : String) (now : Nat) : Jwt :=
  { key := .access, exp := get_expires_delta now, sub := subject }

/-- Translation of `auth_utils.create_refresh_token` with the default
expiry (it calls the same `get_expires_delta`): payload signed with the
refresh secret. -/
def create_refresh_token (subject : String) (now : Nat) : Jwt :=
  { key := .refresh, exp := get_expires_delta now, sub := subject }

/-- Failure kinds of token validation. -/
inductive JwtError where
  | invalid
  | expired
deriving DecidableEq

/-- Modelled from the spec: the Token Issuer's `validate(token, secret)`
operation, realised in the code by the jose library's `jwt.decode` (the
library itself is not part of this repository).  Per the spec it fails
with `InvalidTokenError` on a signature mismatch and with
`ExpiredTokenError` when `now >= expiresAt`; otherwise it returns the
subject claim. -/
def validate (t : Jwt) (k : SecretKey) (now : Nat) : Except JwtError String :=
  if t.key ≠ k then .error .invalid
  else if t.exp ≤ now then .error .expired
  else .ok t.sub

/-! ### Controllers (`auth_controller.py`) -/

namespace AuthController

/-- Error of the empty-argument guard of `verify_user`. -/
def missingParamsErr : Err := { status := 400, detail := "Token and user_id are required" }

/-- Error when the user has no verification token row. -/
def noTokenErr : Err := { status := 400, detail := "User has no verification token" }

/-- Error when the submitted code differs from the latest token's code. -/
def invalidTokenErr : Err := { status := 400, detail := "Invalid token" }

/-- Error when the latest token is expired. -/
def tokenExpiredErr : Err := { status := 400, detail := "Token expired" }

/-- Error when the target user is already verified. -/
def alreadyVerifiedErr : Err := { status := 400, detail := "User already verified" }

/-- Error of the resend throttle while a live token exists. -/
def tokenNotExpiredErr : Err := { status := 400, detail := "Token not expired" }

/-- Error of `login` when no user has the email. -/
def userNotFoundErr : Err := { status := 404, detail := "User not found" }

/-- Error of `login` when password verification fails. -/
def incorrectLoginErr : Err := { status := 404, detail := "Incorrect email or password" }

/-- Error of `create_user` on an absent email. -/
def emailRequiredErr : Err := { status := 400, detail := "Email is required" }

/-- Error of `create_user` on an absent password. -/
def passwordRequiredErr : Err := { status := 400, detail := "Password is required" }

/-- Error of `create_user` on an email the pattern rejects. -/
def invalidEmailErr : Err := { status := 400, detail := "Invalid email" }

/-- Error of `create_user` on a password the policy rejects; the source
raises it with status 401 UNAUTHORIZED, unlike the three 400 cases. -/
def passwordPolicyErr : Err :=
  { status := 401,
    detail := "Password must have a minimum eight characters, at least one uppercase letter, one lowercase letter and one number." }

/-- Error of `create_user` when the store reports the duplicate-entry
uniqueness violation on `user.ix_user_email`. -/
def emailExistsErr : Err := { status := 409, detail := "Email already exists." }

/-- Translation of `auth_controller.create_user`: the four validation
guards in source order, then the insert inside `try`, the verification
token, and the awaited `send_email(user.email, code.token)`; the
duplicate-entry branch of the `except` clause is the store-level
uniqueness violation on the email column.  The bcrypt digest function,
the fresh uuids, the generated 6-digit code and the clock enter as
parameters. -/
def create_user (st : AppState) (email password : String)
    (hash : String → String) (newUserId newTokId code : String) (now : Nat) :
    Except Err (AppState × UserRec) :=
  if email = "" then .error emailRequiredErr
  else if password = "" then .error passwordRequiredErr
  else if !emailMatch email then .error invalidEmailErr
  else if !passwordMatch password then .error passwordPolicyErr
  else if st.users.any (fun u => u.email == email) then .error emailExistsErr
  else
    let (st1, newUser) := UsersRepo.create_user st email (hash password) newUserId now
    let (st2, vt) := AuthRepo.create_verification_token st1 newUser.id newTokId code now
    let st3 := { st2 with emailsSent := st2.emailsSent ++ [(email, vt.token)] }
    .ok (st3, newUser)

/-- Translation of `auth_controller.login`: the user lookup by email, then
password verification against the stored digest; bcrypt's verify enters
as a parameter, and success issues the access and refresh tokens keyed
to the user's email. -/
def login (st : AppState) (email password : String)
    (verify : String → String → Bool) (now : Nat) : Except Err (Jwt × Jwt) :=
  match UsersRepo.get_user_by_email st email with
  | none => .error userNotFoundErr
  | some u =>
    if !verify password u.password then .error incorrectLoginErr
    else .ok (create_access_token u.email now, create_refresh_token u.email now)

/-- Translation of `auth_controller.verify_user`.  The outer `Option` is
the one spot the Python can crash: after the match and expiry checks it
reads `.is_verified` off `get_user_by_id(...)` with no `None` check, and
`none` stands for that `AttributeError`. -/
def verify_user (st : AppState) (user_id token : String) (now : Nat) :
    Option (Except Err (AppState × Bool)) :=
  if token = "" ∨ user_id = "" then some (.error missingParamsErr)
  else
    match AuthRepo.get_latest_verification_token st user_id with
    | none => some (.error noTokenErr)
    | some vt =>
      if vt.token ≠ token then some (.error invalidTokenErr)
      else if vt.expires_at < now then some (.error tokenExpiredErr)
      else
        match UsersRepo.get_user_by_id st vt.user_id with
        | none => none
        | some u =>
          if u.is_verified then some (.error alreadyVerifiedErr)
          else
            let st1 := AuthRepo.verify_user st u.id
            let st2 := AuthRepo.delete_user_verification_tokens st1 u.id
            some (.ok (st2, true))

/-- Translation of `auth_controller.retrieve_new_verification_token`: the
already-verified guard, the resend throttle on a live latest token, the
delete of the user's tokens when a stale one exists, and the creation of
the fresh token.  The source returns `{"ok": True}` without ever calling
`send_email`, so the email log is left untouched. -/
def retrieve_new_verification_token (st : AppState) (user : UserRec)
    (newTokId code : String) (now : Nat) : Except Err (AppState × Bool) :=
  if user.is_verified then .error alreadyVerifiedErr
  else
    match AuthRepo.get_latest_verification_token st user.id with
    | some vt =>
      if now < vt.expires_at then .error tokenNotExpiredErr
      else
        let st1 := AuthRepo.delete_user_verification_tokens st user.id
        .ok ((AuthRepo.create_verification_token st1 user.id newTokId code now).1, true)
    | none =>
      .ok ((AuthRepo.create_verification_token st user.id newTokId code now).1, true)

end AuthController

/-! ### Claim theorems -/

/-- Claim C1: for a user with at least one stored verification token,
`verify_user` compares the submitted code only against the token with the
maximum `created_at` for that user, and fails with the invalid-token error
whenever the submitted code differs from that latest token's code, even if
the submitted code matches an older stored token of the same user (the
quantification over the state covers any such older matching token, and
the second conjunct states that the compared token is the `created_at`
maximum). -/
theorem consume_checks_only_latest
    (st : AppState) (uid tok : String) (now : Nat) (vt : VerificationToken)
    (huid : uid ≠ "") (htok : tok ≠ "")
    (hlatest : AuthRepo.get_latest_verification_token st uid = some vt)
    (hne : tok ≠ vt.token) :
    AuthController.verify_user st uid tok now =
      some (.error AuthController.invalidTokenErr) ∧
    ∀ t ∈ st.vtokens, t.user_id = uid → t.created_at ≤ vt.created_at := by
  constructor
  · have hguard : ¬(tok = "" ∨ uid = "") := by
      rintro (h | h)
      · exact htok h
      · exact huid h
    unfold AuthController.verify_user
    rw [if_neg hguard, hlatest]
    exact if_pos (Ne.symm hne)
  · intro t hmem ht
    have h := hlatest
    unfold AuthRepo.get_latest_verification_token at h
    exact AuthRepo.latestOf_le h t (List.mem_filter.mpr ⟨hmem, by simpa using ht⟩)

/-- A user row shared by the concrete scenarios below. -/
def wUser : UserRec := { id := "u-1", email := "a@b.com", password := "X" }

/-- An older stored token of `wUser` whose code is 111111. -/
def wOldTok : VerificationToken :=
  { id := "t-1", token := "111111", user_id := "u-1", created_at := 10, expires_at := 310 }

/-- A newer stored token of `wUser` whose code is 222222. -/
def wNewTok : VerificationToken :=
  { id := "t-2", token := "222222", user_id := "u-1", created_at := 20, expires_at := 320 }

/-- A state where `wUser` has the two coexisting tokens. -/
def wTwoTokState : AppState :=
  { users := [wUser], vtokens := [wOldTok, wNewTok], emailsSent := [] }

/-- Witness for C1 at a concrete state: the submitted code 111111 exactly
matches the older stored token, yet the call fails with the invalid-token
error because only the newest token (code 222222) is compared. -/
theorem consume_checks_only_latest_witness :
    AuthController.verify_user wTwoTokState "u-1" "111111" 30 =
      some (.error AuthController.invalidTokenErr) ∧
    ∀ t ∈ wTwoTokState.vtokens, t.user_id = "u-1" →
      t.created_at ≤ wNewTok.created_at :=
  consume_checks_only_latest wTwoTokState "u-1" "111111" 30 wNewTok
    (by decide) (by decide) (by decide) (by decide)

/-- A single stored token of `wUser` whose window ends at second 300. -/
def wBoundaryTok : VerificationToken :=
  { id := "t-9", token := "123456", user_id := "u-1", created_at := 0, expires_at := 300 }

/-- A state where the unverified `wUser` holds only `wBoundaryTok`. -/
def wBoundaryState : AppState :=
  { users := [wUser], vtokens := [wBoundaryTok], emailsSent := [] }

/-- The state `wBoundaryState` becomes on successful consumption. -/
def wBoundaryAfter : AppState :=
  { users := [{ wUser with is_verified := true }], vtokens := [], emailsSent := [] }

/-- Counterexample to claim C3 as stated: the claim places the expired
failure at `now >= expiresAt`, but at the instant `now = expiresAt = 300`
the call does not fail with the token-expired error - it succeeds, because
the source's check is the strict `expires_at < now`. -/
theorem consume_expiry_boundary_cex :
    wBoundaryTok.expires_at = 300 ∧
    AuthController.verify_user wBoundaryState "u-1" "123456" 300 =
      some (.ok (wBoundaryAfter, true)) :=
  ⟨rfl, rfl⟩

/-- Claim C3 (amended): for a user whose latest verification token matches
the submitted code, `verify_user` fails with the token-expired error
exactly when `now > latest.expires_at` (strictly); at the instant
`now = expiresAt` the expiry check passes and the call proceeds. -/
theorem consume_expiry_strict
    (st : AppState) (uid tok : String) (now : Nat) (vt : VerificationToken)
    (huid : uid ≠ "") (htok : tok ≠ "")
    (hlatest : AuthRepo.get_latest_verification_token st uid = some vt)
    (hmatch : vt.token = tok) :
    AuthController.verify_user st uid tok now =
      some (.error AuthController.tokenExpiredErr) ↔ vt.expires_at < now := by
  have hguard : ¬(tok = "" ∨ uid = "") := by
    rintro (h | h)
    · exact htok h
    · exact huid h
  unfold AuthController.verify_user
  rw [if_neg hguard, hlatest]
  dsimp only
  rw [if_neg (by rw [hmatch]; exact fun h => h rfl)]
  constructor
  · intro h
    by_contra hn
    rw [if_neg hn] at h
    cases hu : UsersRepo.get_user_by_id st vt.user_id with
    | none => rw [hu] at h; cases h
    | some u =>
      rw [hu] at h
      dsimp only at h
      by_cases hv : u.is_verified
      · rw [if_pos hv] at h
        injection h with h2
        injection h2 with h3
        exact absurd h3 (by decide)
      · rw [if_neg hv] at h
        injection h with h2
        exact Except.noConfusion h2
  · intro h
    rw [if_pos h]

/-- Witness for the amended C3: one second past the boundary the same
concrete call fails with the token-expired error. -/
theorem consume_expiry_strict_witness :
    AuthController.verify_user wBoundaryState "u-1" "123456" 301 =
      some (.error AuthController.tokenExpiredErr) :=
  (consume_expiry_strict wBoundaryState "u-1" "123456" 301 wBoundaryTok
    (by decide) (by decide) (by decide) (by decide)).mpr (by decide)

/-- Claim C4: when `verify_user` succeeds (non-empty arguments, the
submitted code matches the latest token, the token is unexpired and the
user is not yet verified), the resulting state marks that user verified
and keeps zero verification tokens for them, the call acknowledges with
`ok`, and afterwards every further consumption attempt for that user
fails with the no-token error, so the superseded codes are no longer
accepted. -/
theorem consume_success_state
    (st : AppState) (uid tok : String) (now : Nat)
    (vt : VerificationToken) (u : UserRec)
    (huid : uid ≠ "") (htok : tok ≠ "")
    (hlatest : AuthRepo.get_latest_verification_token st uid = some vt)
    (hmatch : vt.token = tok)
    (hlive : ¬ vt.expires_at < now)
    (huser : UsersRepo.get_user_by_id st vt.user_id = some u)
    (hunv : u.is_verified = false) :
    ∃ st2,
      AuthController.verify_user st uid tok now = some (.ok (st2, true)) ∧
      (∀ w ∈ st2.users, w.id = u.id → w.is_verified = true) ∧
      st2.vtokens = st.vtokens.filter (fun t => !(t.user_id == u.id)) ∧
      ∀ tok2 : String, ∀ now2 : Nat, tok2 ≠ "" →
        AuthController.verify_user st2 uid tok2 now2 =
          some (.error AuthController.noTokenErr) := by
  have hid : u.id = vt.user_id := by
    have := List.find?_some huser
    simpa using this
  have hvtuid : vt.user_id = uid := (AuthRepo.get_latest_spec hlatest).2
  have hguard : ¬(tok = "" ∨ uid = "") := by
    rintro (h | h)
    · exact htok h
    · exact huid h
  refine ⟨AuthRepo.delete_user_verification_tokens (AuthRepo.verify_user st u.id) u.id,
    ?_, ?_, ?_, ?_⟩
  · unfold AuthController.verify_user
    rw [if_neg hguard, hlatest]
    dsimp only
    rw [if_neg (by rw [hmatch]; exact fun h => h rfl), if_neg hlive, huser]
    dsimp only
    rw [if_neg (by rw [hunv]; exact Bool.false_ne_true)]
  · intro w hw hwid
    have hm := List.mem_map.mp hw
    obtain ⟨x, hx, hfx⟩ := hm
    by_cases hxid : x.id == u.id
    · rw [if_pos hxid] at hfx
      rw [← hfx]
    · rw [if_neg hxid] at hfx
      subst hfx
      exact absurd (by simpa using hwid) hxid
  · rfl
  · intro tok2 now2 htok2
    have hguard2 : ¬(tok2 = "" ∨ uid = "") := by
      rintro (h | h)
      · exact htok2 h
      · exact huid h
    have hnil :
        (AuthRepo.delete_user_verification_tokens (AuthRepo.verify_user st u.id)
          u.id).vtokens.filter (fun t => t.user_id == uid) = [] := by
      rw [List.filter_eq_nil_iff]
      intro t ht
      have := List.mem_filter.mp ht
      have hne : ¬(t.user_id == u.id) = true := by simpa using this.2
      intro hcontra
      exact hne (by
        have : t.user_id = uid := by simpa using hcontra
        simp [this, hid, hvtuid])
    unfold AuthController.verify_user
    rw [if_neg hguard2]
    unfold AuthRepo.get_latest_verification_token
    rw [hnil]
    rfl

/-- Witness for C4 at a concrete state: consuming the latest code 222222
at second 100 succeeds, verifies the user, clears both stored tokens, and
afterwards the superseded code is answered with the no-token error. -/
theorem consume_success_state_witness :
    ∃ st2,
      AuthController.verify_user wTwoTokState "u-1" "222222" 100 =
        some (.ok (st2, true)) ∧
      (∀ w ∈ st2.users, w.id = wUser.id → w.is_verified = true) ∧
      st2.vtokens = wTwoTokState.vtokens.filter (fun t => !(t.user_id == wUser.id)) ∧
      ∀ tok2 : String, ∀ now2 : Nat, tok2 ≠ "" →
        AuthController.verify_user st2 "u-1" tok2 now2 =
          some (.error AuthController.noTokenErr) :=
  consume_success_state wTwoTokState "u-1" "222222" 100 wNewTok wUser
    (by decide) (by decide) (by decide) (by decide) (by decide) (by decide) (by decide)

/-- Claim C9: the no-token check of `verify_user` precedes the
already-verified check, so with no stored token for the user the call
fails with the no-token error whatever the user's verified flag (in
particular in the state a successful consumption leaves behind), and the
already-verified error is reachable only when the latest token of the
user exists, matches the submitted code, and is unexpired, with the
looked-up user verified. -/
theorem no_token_check_precedes_verified_check
    (st : AppState) (uid tok : String) (now : Nat)
    (huid : uid ≠ "") (htok : tok ≠ "") :
    (st.vtokens.filter (fun t => t.user_id == uid) = [] →
      AuthController.verify_user st uid tok now =
        some (.error AuthController.noTokenErr)) ∧
    (AuthController.verify_user st uid tok now =
        some (.error AuthController.alreadyVerifiedErr) →
      ∃ vt u, AuthRepo.get_latest_verification_token st uid = some vt ∧
        vt.token = tok ∧ ¬ vt.expires_at < now ∧
        UsersRepo.get_user_by_id st vt.user_id = some u ∧
        u.is_verified = true) := by
  have hguard : ¬(tok = "" ∨ uid = "") := by
    rintro (h | h)
    · exact htok h
    · exact huid h
  constructor
  · intro hnil
    unfold AuthController.verify_user
    rw [if_neg hguard]
    unfold AuthRepo.get_latest_verification_token
    rw [hnil]
    rfl
  · intro h
    unfold AuthController.verify_user at h
    rw [if_neg hguard] at h
    cases hl : AuthRepo.get_latest_verification_token st uid with
    | none =>
      rw [hl] at h
      injection h with h2
      injection h2 with h3
      exact absurd h3 (by decide)
    | some vt =>
      rw [hl] at h
      dsimp only at h
      by_cases hm : vt.token ≠ tok
      · rw [if_pos hm] at h
        injection h with h2
        injection h2 with h3
        exact absurd h3 (by decide)
      · rw [if_neg hm] at h
        by_cases he : vt.expires_at < now
        · rw [if_pos he] at h
          injection h with h2
          injection h2 with h3
          exact absurd h3 (by decide)
        · rw [if_neg he] at h
          cases hu : UsersRepo.get_user_by_id st vt.user_id with
          | none => rw [hu] at h; cases h
          | some u =>
            rw [hu] at h
            dsimp only at h
            by_cases hv : u.is_verified
            · exact ⟨vt, u, rfl, of_not_not hm, he, hu, hv⟩
            · rw [if_neg hv] at h
              injection h with h2
              exact Except.noConfusion h2

/-- The state a successful consumption leaves behind: `wUser` verified,
no verification tokens. -/
def wVerifiedState : AppState :=
  { users := [{ wUser with is_verified := true }], vtokens := [], emailsSent := [] }

/-- Witness for C9: for the already-verified, token-free concrete state
the call answers with the no-token error, not the already-verified
error. -/
theorem no_token_check_precedes_verified_check_witness :
    AuthController.verify_user wVerifiedState "u-1" "123456" 0 =
      some (.error AuthController.noTokenErr) :=
  (no_token_check_precedes_verified_check wVerifiedState "u-1" "123456" 0
    (by decide) (by decide)).1 (by decide)

/-- Every stored verification token's `user_id` references a stored user
row. -/
def refIntegrity (st : AppState) : Bool :=
  st.vtokens.all fun t => st.users.any fun u => u.id == t.user_id

/-- A state whose only verification token references no stored user. -/
def wDanglingState : AppState :=
  { users := [],
    vtokens := [{ id := "t-7", token := "123456", user_id := "u-9", created_at := 0, expires_at := 300 }],
    emailsSent := [] }

/-- Claim C10: after the match and expiry checks `verify_user` reads the
user row of the token's `user_id` with no none-check, so the operation is
total (returns one of its error or success outcomes, never the crash
modelled by `none`) whenever every stored token references an existing
user; and on a state violating that precondition the crash is reached
(second conjunct, at a concrete dangling state). -/
theorem consume_total_under_ref_integrity :
    (∀ st : AppState, refIntegrity st = true → ∀ uid tok : String, ∀ now : Nat,
      (AuthController.verify_user st uid tok now).isSome = true) ∧
    AuthController.verify_user wDanglingState "u-9" "123456" 0 = none := by
  constructor
  · intro st hri uid tok now
    unfold AuthController.verify_user
    by_cases hguard : (tok = "" ∨ uid = "")
    · rw [if_pos hguard]; rfl
    · rw [if_neg hguard]
      cases hl : AuthRepo.get_latest_verification_token st uid with
      | none => rfl
      | some vt =>
        dsimp only
        by_cases hm : vt.token ≠ tok
        · rw [if_pos hm]; rfl
        · rw [if_neg hm]
          by_cases he : vt.expires_at < now
          · rw [if_pos he]; rfl
          · rw [if_neg he]
            cases hu : UsersRepo.get_user_by_id st vt.user_id with
            | none =>
              exfalso
              have hmem := (AuthRepo.get_latest_spec hl).1
              unfold refIntegrity at hri
              have hany := List.all_eq_true.mp hri vt hmem
              obtain ⟨w, hwmem, hw⟩ := List.any_eq_true.mp hany
              have hsome : (st.users.find? fun u => u.id == vt.user_id).isSome :=
                List.find?_isSome.mpr ⟨w, hwmem, hw⟩
              unfold UsersRepo.get_user_by_id at hu
              rw [hu] at hsome
              cases hsome
            | some u =>
              dsimp only
              by_cases hv : u.is_verified
              · rw [if_pos hv]; rfl
              · rw [if_neg hv]; rfl
  · rfl

/-- Witness for C10: the first conjunct applied at a concrete state whose
tokens all reference stored users. -/
theorem consume_total_under_ref_integrity_witness :
    (AuthController.verify_user wTwoTokState "u-1" "222222" 330).isSome = true :=
  consume_total_under_ref_integrity.1 wTwoTokState (by decide) "u-1" "222222" 330

/-- A state where the unverified `wUser` holds only the stale `wOldTok`
(expired after second 310) and no email has been dispatched. -/
def wStaleTokState : AppState :=
  { users := [wUser], vtokens := [wOldTok], emailsSent := [] }

/-- Claim C2, evaluated at the failing input: for an unverified user whose
only token is stale, the resend succeeds, deletes the old token, creates
exactly the one fresh token - and leaves the outbound email log empty,
because `retrieve_new_verification_token` never calls `send_email`, so
the fresh code is not dispatched to the user as the claim states. -/
theorem resend_dispatches_no_email :
    AuthController.retrieve_new_verification_token wStaleTokState wUser "t-4" "444444" 1000 =
      .ok ({ users := [wUser],
             vtokens := [{ id := "t-4", token := "444444", user_id := "u-1", created_at := 1000, expires_at := 1300 }],
             emailsSent := [] }, true) ∧
    wStaleTokState.emailsSent = [] :=
  ⟨rfl, rfl⟩

/-- Counterexample to claim C5 as stated: at a concrete store, login with
an email matching no user and login with a stored email but failing
password verification produce two distinct error values - 404 "User not
found" against 404 "Incorrect email or password" - not one identical
kind-and-message pair. -/
theorem login_distinct_messages_cex :
    AuthController.login wTwoTokState "missing@b.com" "Whatever1" (fun _ _ => false) 0 =
      .error AuthController.userNotFoundErr ∧
    AuthController.login wTwoTokState "a@b.com" "Whatever1" (fun _ _ => false) 0 =
      .error AuthController.incorrectLoginErr ∧
    AuthController.userNotFoundErr ≠ AuthController.incorrectLoginErr :=
  ⟨rfl, rfl, by decide⟩

/-- Claim C5 (amended): the two failures share the same status kind (404)
but not the same message: a nonexistent email is answered "User not
found" while a failing password verification is answered "Incorrect email
or password", so a caller can distinguish the two cases. -/
theorem login_error_kinds
    (st : AppState) (email password : String)
    (verify : String → String → Bool) (now : Nat) :
    (UsersRepo.get_user_by_email st email = none →
      AuthController.login st email password verify now =
        .error AuthController.userNotFoundErr) ∧
    (∀ u, UsersRepo.get_user_by_email st email = some u →
      verify password u.password = false →
      AuthController.login st email password verify now =
        .error AuthController.incorrectLoginErr) ∧
    AuthController.userNotFoundErr.status = AuthController.incorrectLoginErr.status ∧
    AuthController.userNotFoundErr.detail ≠ AuthController.incorrectLoginErr.detail := by
  refine ⟨?_, ?_, rfl, by decide⟩
  · intro h
    unfold AuthController.login
    rw [h]
  · intro u hu hv
    unfold AuthController.login
    rw [hu]
    dsimp only
    rw [if_pos (by rw [hv]; rfl)]

/-- Witness for the amended C5 at a concrete store. -/
theorem login_error_kinds_witness :
    AuthController.login wTwoTokState "missing@b.com" "pw" (fun _ _ => false) 5 =
      .error AuthController.userNotFoundErr ∧
    AuthController.login wTwoTokState "a@b.com" "pw" (fun _ _ => false) 5 =
      .error AuthController.incorrectLoginErr :=
  ⟨(login_error_kinds wTwoTokState "missing@b.com" "pw" (fun _ _ => false) 5).1
      (by decide),
   (login_error_kinds wTwoTokState "a@b.com" "pw" (fun _ _ => false) 5).2.1 wUser
      (by decide) rfl⟩

/-- The empty store. -/
def emptyState : AppState := { users := [], vtokens := [], emailsSent := [] }

/-- Counterexample to claim C6 as stated: a password-complexity failure is
not raised with the 400 ValidationError kind of the other three cases -
at a concrete input it is raised with status 401. -/
theorem password_policy_status_cex :
    AuthController.create_user emptyState "a@b.com" "short1" (fun s => s) "u-9" "t-9" "111111" 0 =
      .error AuthController.passwordPolicyErr ∧
    AuthController.passwordPolicyErr.status = 401 ∧
    AuthController.invalidEmailErr.status = 400 ∧ (401 : Nat) ≠ 400 :=
  ⟨rfl, rfl, rfl, by decide⟩

/-- Claim C6 (amended): `create_user` fails on an absent email, an absent
password, and a pattern-rejected email with status-400 errors, but on a
policy-rejected password with a status-401 error - a different kind from
the other three cases. -/
theorem register_validation_kinds
    (st : AppState) (email password : String) (hash : String → String)
    (nuid ntid code : String) (now : Nat) :
    (email = "" →
      AuthController.create_user st email password hash nuid ntid code now =
        .error AuthController.emailRequiredErr) ∧
    (email ≠ "" → password = "" →
      AuthController.create_user st email password hash nuid ntid code now =
        .error AuthController.passwordRequiredErr) ∧
    (email ≠ "" → password ≠ "" → emailMatch email = false →
      AuthController.create_user st email password hash nuid ntid code now =
        .error AuthController.invalidEmailErr) ∧
    (email ≠ "" → password ≠ "" → emailMatch email = true →
      passwordMatch password = false →
      AuthController.create_user st email password hash nuid ntid code now =
        .error AuthController.passwordPolicyErr) ∧
    AuthController.emailRequiredErr.status = 400 ∧
    AuthController.passwordRequiredErr.status = 400 ∧
    AuthController.invalidEmailErr.status = 400 ∧
    AuthController.passwordPolicyErr.status = 401 := by
  refine ⟨?_, ?_, ?_, ?_, rfl, rfl, rfl, rfl⟩
  · intro h
    unfold AuthController.create_user
    rw [if_pos h]
  · intro h1 h2
    unfold AuthController.create_user
    rw [if_neg h1, if_pos h2]
  · intro h1 h2 h3
    unfold AuthController.create_user
    rw [if_neg h1, if_neg h2, if_pos (by rw [h3]; rfl)]
  · intro h1 h2 h3 h4
    unfold AuthController.create_user
    rw [if_neg h1, if_neg h2, if_neg (by rw [h3]; decide),
      if_pos (by rw [h4]; rfl)]

/-- Witness for the amended C6, one concrete input per failure case. -/
theorem register_validation_kinds_witness :
    AuthController.create_user emptyState "" "Passw0rd" (fun s => s) "u" "t" "1" 0 =
      .error AuthController.emailRequiredErr ∧
    AuthController.create_user emptyState "a@b.com" "" (fun s => s) "u" "t" "1" 0 =
      .error AuthController.passwordRequiredErr ∧
    AuthController.create_user emptyState "bademail" "Passw0rd" (fun s => s) "u" "t" "1" 0 =
      .error AuthController.invalidEmailErr ∧
    AuthController.create_user emptyState "a@b.com" "short1" (fun s => s) "u" "t" "1" 0 =
      .error AuthController.passwordPolicyErr :=
  ⟨(register_validation_kinds emptyState "" "Passw0rd" (fun s => s) "u" "t" "1" 0).1 rfl,
   (register_validation_kinds emptyState "a@b.com" "" (fun s => s) "u" "t" "1" 0).2.1
      (by decide) rfl,
   (register_validation_kinds emptyState "bademail" "Passw0rd" (fun s => s) "u" "t" "1" 0).2.2.1
      (by decide) (by decide) (by decide),
   (register_validation_kinds emptyState "a@b.com" "short1" (fun s => s) "u" "t" "1" 0).2.2.2.1
      (by decide) (by decide) (by decide) (by decide)⟩

/-- Claim C7: for every pair passing the two validation patterns and a
store holding no user with that email, registration succeeds and creates
the user with provider `local` and `is_verified = false`; and a second
registration with the same email against the resulting store fails with
the 409 conflict error, the branch the controller takes exactly when the
store reports the email-uniqueness violation. -/
theorem register_unique_email
    (st : AppState) (email password password2 : String)
    (hash hash2 : String → String)
    (nuid ntid code nuid2 ntid2 code2 : String) (now now2 : Nat)
    (hemail : emailMatch email = true)
    (hpass : passwordMatch password = true)
    (hpass2 : passwordMatch password2 = true)
    (hfresh : ∀ u ∈ st.users, u.email ≠ email) :
    ∃ st2 nu,
      AuthController.create_user st email password hash nuid ntid code now =
        .ok (st2, nu) ∧
      nu.provider = "local" ∧ nu.is_verified = false ∧ nu.email = email ∧
      nu ∈ st2.users ∧
      AuthController.create_user st2 email password2 hash2 nuid2 ntid2 code2 now2 =
        .error AuthController.emailExistsErr := by
  have hne : email ≠ "" := by
    intro h
    rw [h] at hemail
    exact absurd hemail (by decide)
  have hpne : password ≠ "" := by
    intro h
    rw [h] at hpass
    exact absurd hpass (by decide)
  have hpne2 : password2 ≠ "" := by
    intro h
    rw [h] at hpass2
    exact absurd hpass2 (by decide)
  have hnodup : ¬(st.users.any fun u => u.email == email) = true := by
    intro hc
    obtain ⟨w, hwmem, hw⟩ := List.any_eq_true.mp hc
    exact hfresh w hwmem (by simpa using hw)
  refine ⟨{ users := st.users ++ [⟨nuid, none, email, hash password, "local", none, none, false, false, now⟩]
            vtokens := st.vtokens ++ [⟨ntid, code, nuid, now, now + 300⟩]
            emailsSent := st.emailsSent ++ [(email, code)] },
    ⟨nuid, none, email, hash password, "local", none, none, false, false, now⟩,
    ?_, rfl, rfl, rfl, ?_, ?_⟩
  · unfold AuthController.create_user
    rw [if_neg hne, if_neg hpne, if_neg (by rw [hemail]; decide),
      if_neg (by rw [hpass]; decide), if_neg hnodup]
    rfl
  · exact List.mem_append.mpr (Or.inr (List.mem_singleton.mpr rfl))
  · unfold AuthController.create_user
    rw [if_neg hne, if_neg hpne2, if_neg (by rw [hemail]; decide),
      if_neg (by rw [hpass2]; decide),
      if_pos (List.any_eq_true.mpr
        ⟨_, List.mem_append.mpr (Or.inr (List.mem_singleton.mpr rfl)),
          by simp⟩)]

/-- Witness for C7: the empty store, a valid pair, and the repeated email. -/
theorem register_unique_email_witness :
    ∃ st2 nu,
      AuthController.create_user emptyState "a@b.com" "Passw0rd" (fun s => s)
        "u-1" "t-1" "111111" 0 = .ok (st2, nu) ∧
      nu.provider = "local" ∧ nu.is_verified = false ∧ nu.email = "a@b.com" ∧
      nu ∈ st2.users ∧
      AuthController.create_user st2 "a@b.com" "Aa1bcdefg" (fun s => s)
        "u-2" "t-2" "222222" 9 = .error AuthController.emailExistsErr :=
  register_unique_email emptyState "a@b.com" "Passw0rd" "Aa1bcdefg"
    (fun s => s) (fun s => s) "u-1" "t-1" "111111" "u-2" "t-2" "222222" 0 9
    (by decide) (by decide) (by decide) (by decide)

/-- Claim C8: for every subject, validating the issued access token with
the access secret returns exactly that subject at every instant before
the token's expiry, and from the expiry instant on the validation fails
with the expired error. -/
theorem token_roundtrip (subject : String) (now t : Nat) :
    (t < (create_access_token subject now).exp →
      validate (create_access_token subject now) .access t = .ok subject) ∧
    ((create_access_token subject now).exp ≤ t →
      validate (create_access_token subject now) .access t = .error .expired) := by
  constructor
  · intro h
    unfold validate
    rw [if_neg (fun hh => hh rfl), if_neg (by omega)]
    rfl
  · intro h
    unfold validate
    rw [if_neg (fun hh => hh rfl), if_pos h]

/-- Witness for C8 at a concrete subject and clock readings on both sides
of the expiry instant `0 + 99999999 * 60`. -/
theorem token_roundtrip_witness :
    validate (create_access_token "alice" 0) .access 5 = .ok "alice" ∧
    validate (create_access_token "alice" 0) .access 5999999941 = .error .expired :=
  ⟨(token_roundtrip "alice" 0 5).1 (by decide),
   (token_roundtrip "alice" 0 5999999941).2 (by decide)⟩

end FastAPIAuth
